import Mathlib

/-!
Shallow embedding of `scripts/analyze_code.py` (the single source file of the
repository): the parsing, filtering/aggregation and report-assembly core, with
Python string/regex/JSON primitives modelled by executable Lean functions over
`List Char`.  Definitions keep the Python names (`_parse_complexity_output`,
`_build_metrics_section`, ...).  Machine integers are `Nat`/`Int` (Python ints
are unbounded, so no wrap-around modelling is needed).  Python exceptions are
modelled with `Except PyError`.  All string primitives are restricted to the
ASCII behaviour of the Python originals (every string the script manipulates is
ASCII except the fixed emoji literals, which are only ever copied verbatim).
-/

/-! ### Python string primitives -/

/-- Whitespace characters matched by Python's regex class `\s` and by
`str.strip()` (ASCII subset). -/
def isPySpace (c : Char) : Bool :=
  c == ' ' || c == '\t' || c == '\n' || c == '\r' || c == '\x0b' || c == '\x0c'

/-- Python `str.strip()`: drop leading and trailing whitespace. -/
def pyStrip (s : String) : String :=
  String.mk (((s.data.dropWhile isPySpace).reverse.dropWhile isPySpace).reverse)

/-- Python `sep.join(parts)` (also used for `'\n'.join(sections)`). -/
def pyJoin (sep : String) : List String → String
  | [] => ""
  | [x] => x
  | x :: y :: xs => x ++ sep ++ pyJoin sep (y :: xs)

/-- Whether `p` is a prefix of `s`, on character lists. -/
def charsPrefixOf : List Char → List Char → Bool
  | [], _ => true
  | _ :: _, [] => false
  | p :: ps, c :: cs => p == c && charsPrefixOf ps cs

/-- Split `s` around the leftmost occurrence of the nonempty pattern `pat`,
returning the part before it and the part after it. -/
def breakOnSub (pat : List Char) : List Char → Option (List Char × List Char)
  | [] => if charsPrefixOf pat [] then some ([], []) else none
  | c :: cs =>
    if charsPrefixOf pat (c :: cs) then some ([], (c :: cs).drop pat.length)
    else
      match breakOnSub pat cs with
      | some (pre, post) => some (c :: pre, post)
      | none => none

/-- Fueled worker for `pySplit`; the fuel `s.length + 1` always suffices
because each successful break consumes at least one character. -/
def pySplitAux (pat : List Char) : Nat → List Char → List (List Char)
  | 0, s => [s]
  | fuel + 1, s =>
    match breakOnSub pat s with
    | none => [s]
    | some (pre, post) => pre :: pySplitAux pat fuel post

/-- Python `s.split(sep)` for a nonempty separator: non-overlapping,
left-to-right, keeping empty parts (`"".split('\n') = [""]`). -/
def pySplit (s sep : String) : List String :=
  (pySplitAux sep.data (s.data.length + 1) s.data).map String.mk

/-- Python `sub in s` (substring containment; `"" in s` is `True`). -/
def pyContains (s sub : String) : Bool :=
  if sub.data.isEmpty then true else (breakOnSub sub.data s.data).isSome

/-- Python `s.startswith(p)`. -/
def pyStartsWith (s p : String) : Bool := charsPrefixOf p.data s.data

/-- Python `s.endswith(p)`. -/
def pyEndsWith (s p : String) : Bool := charsPrefixOf p.data.reverse s.data.reverse

/-- Python `s.upper()` (ASCII). -/
def pyToUpper (s : String) : String := String.mk (s.data.map Char.toUpper)

/-- Worker for `pyTitle`; the flag records whether the previous character was
alphabetic. -/
def pyTitleAux : List Char → Bool → List Char
  | [], _ => []
  | c :: cs, prevAlpha =>
    if c.isAlpha then (if prevAlpha then c.toLower else c.toUpper) :: pyTitleAux cs true
    else c :: pyTitleAux cs false

/-- Python `s.title()` (ASCII): a letter after a non-letter is uppercased,
other letters are lowercased. -/
def pyTitle (s : String) : String := String.mk (pyTitleAux s.data false)

/-- Fueled worker for `pyReplace`. -/
def pyReplaceAux (pat repl : List Char) : Nat → List Char → List Char
  | 0, s => s
  | fuel + 1, s =>
    match breakOnSub pat s with
    | none => s
    | some (pre, post) => pre ++ repl ++ pyReplaceAux pat repl fuel post

/-- Python `s.replace(pat, repl)` for a nonempty pattern: non-overlapping,
left to right. -/
def pyReplace (s pat repl : String) : String :=
  String.mk (pyReplaceAux pat.data repl.data (s.data.length + 1) s.data)

/-- Worker for `pyCommaFmt`: walks the reversed digit list inserting a comma
after every third digit (except at the very end). -/
def commaGroupAux : List Char → Nat → List Char
  | [], _ => []
  | c :: rest, i =>
    c :: (if (i + 1) % 3 == 0 && !rest.isEmpty then [','] else []) ++ commaGroupAux rest (i + 1)

/-- Python's `f"{n:,}"` thousands-separator formatting of a natural number. -/
def pyCommaFmt (n : Nat) : String :=
  String.mk ((commaGroupAux (toString n).data.reverse 0).reverse)

/-- Python `s.lstrip('/')`. -/
def pyLstripSlashes (s : String) : String := String.mk (s.data.dropWhile (· == '/'))

/-- Python `s[:n]` for nonnegative `n`. -/
def pyTake (s : String) (n : Nat) : String := String.mk (s.data.take n)

/-- Python `len(s)` (in characters). -/
def pyLen (s : String) : Nat := s.data.length

/-- Python `name and name[0].isupper()` (ASCII uppercase check of the first
character; `False` on the empty string). -/
def pyIsUpperFirst (s : String) : Bool :=
  match s.data with
  | [] => false
  | c :: _ => c.isUpper

/-- Numeric value of a digit string (what Python's `int()` returns on a string
of decimal digits). -/
def natOfDigits (ds : List Char) : Nat := ds.foldl (fun n c => 10 * n + (c.toNat - 48)) 0

/-! ### Data model (the `@dataclass` declarations of the script) -/

/-- `ComplexityEntry`: a single complexity measurement. -/
structure ComplexityEntry where
  complexity : Nat
  package : String
  function : String
  file : String
  line : Nat
deriving DecidableEq, Repr

/-- `CoverageEntry`: test coverage for a package. -/
structure CoverageEntry where
  package : String
  status : String
  coverage : String
  cached : Bool := false
deriving DecidableEq, Repr

/-- `SecurityIssue`: a security issue found by gosec (well-typed form, as used
by the report assembler). -/
structure SecurityIssue where
  severity : String
  confidence : String
  rule : String
  details : String
  file : String
  line : Int
deriving DecidableEq, Repr

/-- `CodeSmell`: a code smell found by goconst (`type` is a Lean keywordish
field name, kept as `type'`). -/
structure CodeSmell where
  type' : String
  message : String
  file : String
  line : Nat
deriving DecidableEq, Repr

/-- `ArchitectureViolation`: an architecture violation found by go-cleanarch. -/
structure ArchitectureViolation where
  violation_type : String
  details : String
  file : String
deriving DecidableEq, Repr

/-- A go vet issue record (the script stores these as string-valued dicts:
`line` and `col` are the *strings* captured by the regex). -/
structure VetIssue where
  file : String
  line : String
  col : String
  message : String
deriving DecidableEq, Repr

/-- A staticcheck issue record (string-valued dict in the script). -/
structure StaticcheckIssue where
  file : String
  line : String
  col : String
  message : String
  rule : String
deriving DecidableEq, Repr

/-- A dead-code item (string-valued dict in the script). -/
structure DeadItem where
  file : String
  line : String
  col : String
  message : String
deriving DecidableEq, Repr

/-- A govulncheck finding (dict with `type`, `message`, `details`). -/
structure Vulnerability where
  type' : String
  message : String
  details : List String
deriving DecidableEq, Repr

/-- A golangci-lint issue record (string-valued dict in the script). -/
structure GolangciIssue where
  file : String
  line : String
  col : String
  message : String
  linter : String
deriving DecidableEq, Repr

/-- The `static_analysis` result dict: `issues`, `error` (`None` or a
nonempty string — the script never stores an empty string) and `success`. -/
structure StaticAnalysisResult where
  issues : List GolangciIssue
  error : Option String
  success : Bool
deriving DecidableEq, Repr

/-- A per-package metric row (string/number-valued dict in the script). -/
structure PackageMetric where
  package : String
  full_package : String
  go_files : Nat
  test_files : Nat
  lines : Nat
  test_lines : Nat
deriving DecidableEq, Repr

/-- `CodeMetrics`: overall code metrics. -/
structure CodeMetrics where
  total_lines : Nat
  go_files : Nat
  packages : Nat
  coverage_entries : List CoverageEntry
  package_metrics : List PackageMetric
deriving DecidableEq, Repr

/-- `AnalysisConfig`: the configuration value (only the fields the core
reads). -/
structure AnalysisConfig where
  output_file : String
  complexity_threshold : Int
  top_functions : Nat
  exclude_test_files : Bool
  exclude_vendor : Bool
  exclude_examples : Bool
  deadcode_exclude_files : List String
  deadcode_exclude_functions : List String
  deadcode_exclude_public_interfaces : Bool
  project_name : String
  package_pattern : String
deriving DecidableEq, Repr

/-- The default configuration built by `AnalysisConfig.__init__`. -/
def defaultAnalysisConfig : AnalysisConfig :=
  ⟨"docs/code_analysis.md", 15, 10, true, true, true,
   ["demo/", "interfaces.go"], [], true, "Go Project", "github.com/*/batchexec"⟩

/-! ### The complexity parsers

The gocyclo regex is `^(\d+)\s+(\S+)\s+(\S+)\s+(.+):(\d+):\d+$` and the
gocognit one is `^(\d+)\s+(\S+)\s+(\S+)\s+(.+):(\d+)$`.  Since `\d`, `\s`,
`\S` are pairwise disjoint character classes, the first five groups are forced
to be maximal runs; all backtracking collapses into the tail: the last one
(resp. two) colon-separated fields must be nonempty digit runs reaching the
end of the line, `(.+)` is everything before them, and — the one genuine
backtracking case — when that prefix would be empty the greedy `\s+` gives one
whitespace character back to `(.+)`. -/

/-- Match the tail `(.+):(\d+):\d+$` (with `withCol`) or `(.+):(\d+)$`
(without) against `t`, returning the `(.+)` capture (possibly empty here;
the caller handles the empty-prefix backtracking) and the `(\d+)` line
capture. -/
def tailGroups (withCol : Bool) (t : List Char) : Option (List Char × Nat) :=
  let r := t.reverse
  let h := r.takeWhile Char.isDigit
  let r1 := r.dropWhile Char.isDigit
  if h.isEmpty then none
  else
    match r1 with
    | ':' :: r2 =>
      if withCol then
        let g := r2.takeWhile Char.isDigit
        let r3 := r2.dropWhile Char.isDigit
        if g.isEmpty then none
        else
          match r3 with
          | ':' :: r4 => some (r4.reverse, natOfDigits g.reverse)
          | _ => none
      else some (r2.reverse, natOfDigits h.reverse)
    | _ => none

/-- One line of gocyclo (`withCol = true`) or gocognit (`withCol = false`)
output, matched against the anchored regex described above. -/
def matchComplexityLine (withCol : Bool) (line : String) : Option ComplexityEntry :=
  let cs := line.data
  let d := cs.takeWhile Char.isDigit
  let r1 := cs.dropWhile Char.isDigit
  if d.isEmpty then none
  else
    let w1 := r1.takeWhile isPySpace
    let r2 := r1.dropWhile isPySpace
    if w1.isEmpty then none
    else
      let a := r2.takeWhile (fun c => !isPySpace c)
      let r3 := r2.dropWhile (fun c => !isPySpace c)
      if a.isEmpty then none
      else
        let w2 := r3.takeWhile isPySpace
        let r4 := r3.dropWhile isPySpace
        if w2.isEmpty then none
        else
          let b := r4.takeWhile (fun c => !isPySpace c)
          let r5 := r4.dropWhile (fun c => !isPySpace c)
          if b.isEmpty then none
          else
            let w3 := r5.takeWhile isPySpace
            let t := r5.dropWhile isPySpace
            if w3.isEmpty then none
            else
              match tailGroups withCol t with
              | none => none
              | some (f, g) =>
                if !f.isEmpty then
                  some ⟨natOfDigits d, String.mk a, String.mk b, String.mk f, g⟩
                else if w3.length ≥ 2 then
                  some ⟨natOfDigits d, String.mk a, String.mk b,
                        String.mk [w3.getLastD ' '], g⟩
                else none

/-- Stable descending insertion by the `complexity` key: the new element goes
before the first element whose complexity is not strictly greater. -/
def insertDesc (x : ComplexityEntry) : List ComplexityEntry → List ComplexityEntry
  | [] => [x]
  | h :: t => if x.complexity < h.complexity then h :: insertDesc x t else x :: h :: t

/-- Python's `sorted(entries, key=lambda x: x.complexity, reverse=True)`:
the unique stable descending sort by the `complexity` key (Python's sort is
documented to be stable, also under `reverse=True`), realised as a stable
insertion sort. -/
def sortedByComplexityDesc : List ComplexityEntry → List ComplexityEntry
  | [] => []
  | x :: xs => insertDesc x (sortedByComplexityDesc xs)

/-- `_parse_complexity_output`: parse gocyclo output into structured data,
skipping lines that are blank after stripping or fail the regex, then sort
descending by complexity. -/
def _parse_complexity_output (output : String) : List ComplexityEntry :=
  let entries := (pySplit (pyStrip output) "\n").filterMap fun line =>
    if (pyStrip line).data.isEmpty then none else matchComplexityLine true line
  sortedByComplexityDesc entries

/-- `_parse_gocognit_output`: parse gocognit output (same grammar without the
trailing column), then sort descending by complexity. -/
def _parse_gocognit_output (output : String) : List ComplexityEntry :=
  let entries := (pySplit (pyStrip output) "\n").filterMap fun line =>
    if (pyStrip line).data.isEmpty then none else matchComplexityLine false line
  sortedByComplexityDesc entries

/-! ### Dead-code filtering (`_filter_deadcode_results`) -/

/-- Step 1 of the dead-code policy: the file path contains, or starts with,
one of the configured exclude patterns. -/
def deadcodeFileExcluded (cfg : AnalysisConfig) (file_path : String) : Bool :=
  cfg.deadcode_exclude_files.any fun pat =>
    pyContains file_path pat || pyStartsWith file_path pat

/-- Step 2 of the dead-code policy: the message contains one of the configured
excluded-function substrings. -/
def deadcodeFuncExcluded (cfg : AnalysisConfig) (message : String) : Bool :=
  cfg.deadcode_exclude_functions.any fun pat => pyContains message pat

/-- The function-name extraction of step 3:
`message.split('unreachable func:')[1].strip()`, then the part after the last
`'.'` (or the whole identifier if it has no `'.'`). -/
def deadcodeFuncName (message : String) : String :=
  let func_part := pyStrip ((pySplit message "unreachable func:").getD 1 "")
  if pyContains func_part "." then (pySplit func_part ".").getLastD ""
  else func_part

/-- Step 3 of the dead-code policy: with the exclude-public-interfaces toggle
on, an entry in a file ending in `interfaces.go` whose message contains
`unreachable func:` is skipped when the extracted function name is nonempty
and starts with an uppercase character. -/
def deadcodePublicInterfaceSkip (cfg : AnalysisConfig) (file_path message : String) : Bool :=
  cfg.deadcode_exclude_public_interfaces &&
    pyEndsWith file_path "interfaces.go" &&
    pyContains message "unreachable func:" &&
    pyIsUpperFirst (deadcodeFuncName message)

/-- `_filter_deadcode_results`: filter dead code results based on
configuration, keeping surviving items in their original order. -/
def _filter_deadcode_results (cfg : AnalysisConfig) (dead_code_items : List DeadItem) :
    List DeadItem :=
  dead_code_items.filter fun item =>
    !deadcodeFileExcluded cfg item.file &&
    !deadcodeFuncExcluded cfg item.message &&
    !deadcodePublicInterfaceSkip cfg item.file item.message

/-! ### The gosec JSON parser (`_parse_gosec_output`)

`json.loads` is Python-library code outside the script; the embedding takes
its result as input: `Except.error .jsonDecodeError` for text that is not
valid JSON, otherwise the decoded value (a `PyJson` tree; JSON numbers are
modelled as integers, which covers every field gosec emits).  The remaining
Python operations (`in`, indexing, iteration, `.get`, `.startswith`,
`int(...)`) are modelled exactly, including the exception type each raises on
an operand of the wrong type, because the script's `except` clause catches
only `(json.JSONDecodeError, KeyError, ValueError)`. -/

/-- Decoded JSON values (numbers restricted to integers). -/
inductive PyJson where
  | null : PyJson
  | bool (b : Bool) : PyJson
  | num (n : Int) : PyJson
  | str (s : String) : PyJson
  | arr (xs : List PyJson) : PyJson
  | obj (kvs : List (String × PyJson)) : PyJson

/-- The Python exception kinds the parser can encounter. -/
inductive PyError where
  | jsonDecodeError : PyError
  | keyError : PyError
  | valueError : PyError
  | typeError : PyError
  | attributeError : PyError
deriving DecidableEq, Repr

/-- A gosec issue as the script builds it: the `.get` results are stored
unconverted (so they are arbitrary JSON values), except `line`, which went
through `int(...)`. -/
structure GosecIssue where
  severity : PyJson
  confidence : PyJson
  rule : PyJson
  details : PyJson
  file : PyJson
  line : Int

/-- Python `key in data` for a decoded JSON value `data`: key lookup on a
dict, membership on a list, substring test on a string, `TypeError`
otherwise. -/
def pyInKey (key : String) : PyJson → Except PyError Bool
  | .obj kvs => .ok (kvs.any fun kv => kv.1 == key)
  | .arr xs => .ok (xs.any fun j => match j with | .str s => s == key | _ => false)
  | .str s => .ok (pyContains s key)
  | _ => .error .typeError

/-- Python `data[key]`: value lookup on a dict (`KeyError` when absent;
`json.loads` keeps the last of duplicate keys, hence the reverse search),
`TypeError` on any other value. -/
def pyGetItem (data : PyJson) (key : String) : Except PyError PyJson :=
  match data with
  | .obj kvs =>
    match kvs.reverse.find? (fun kv => kv.1 == key) with
    | some kv => .ok kv.2
    | none => .error .keyError
  | _ => .error .typeError

/-- Python `for x in v`: the elements of a list, the one-character strings of
a string, the keys of a dict, `TypeError` otherwise. -/
def pyIterList : PyJson → Except PyError (List PyJson)
  | .arr xs => .ok xs
  | .str s => .ok (s.data.map fun c => .str (String.mk [c]))
  | .obj kvs => .ok (kvs.map fun kv => .str kv.1)
  | _ => .error .typeError

/-- Python `d.get(key, default)`: only dicts have `.get`
(`AttributeError` otherwise); the default is returned only when the key is
absent. -/
def pyDictGet (j : PyJson) (key : String) (default : PyJson) : Except PyError PyJson :=
  match j with
  | .obj kvs =>
    match kvs.reverse.find? (fun kv => kv.1 == key) with
    | some kv => .ok kv.2
    | none => .ok default
  | _ => .error .attributeError

/-- Python `int(v)` for a decoded JSON value: identity on integers, `True`/
`False` are `1`/`0`, a string is stripped and parsed as an optionally signed
digit run (`ValueError` on failure), and every other value raises
`TypeError`. -/
def pyIntFn : PyJson → Except PyError Int
  | .num n => .ok n
  | .bool b => .ok (if b then 1 else 0)
  | .str s =>
    let t := (pyStrip s).data
    let (sgn, ds) : Int × List Char :=
      match t with
      | '-' :: rest => (-1, rest)
      | '+' :: rest => (1, rest)
      | rest => (1, rest)
    if !ds.isEmpty && ds.all Char.isDigit then .ok (sgn * (natOfDigits ds : Int))
    else .error .valueError
  | _ => .error .typeError

/-- The per-issue body of the parser's loop: `issue.get('file', '')`, the
absolute-path truncation against the project root, then the `SecurityIssue`
constructor arguments in evaluation order, ending with
`int(issue.get('line', 0))`. -/
def processGosecIssue (project_root : String) (issue : PyJson) : Except PyError GosecIssue := do
  let file0 ← pyDictGet issue "file" (.str "")
  let file1 ←
    match file0 with
    | .str s =>
      pure (PyJson.str (if pyStartsWith s "/" then
        (if pyStartsWith s project_root then
          pyLstripSlashes (String.mk (s.data.drop project_root.data.length))
        else s)
      else s))
    | _ => .error .attributeError
  let sev ← pyDictGet issue "severity" (.str "UNKNOWN")
  let conf ← pyDictGet issue "confidence" (.str "UNKNOWN")
  let rule ← pyDictGet issue "rule_id" (.str "")
  let det ← pyDictGet issue "details" (.str "")
  let lnJ ← pyDictGet issue "line" (.num 0)
  let ln ← pyIntFn lnJ
  pure ⟨sev, conf, rule, det, file1, ln⟩

/-- The parser's `for issue in ...` loop: issues appended so far are kept
when an exception interrupts the loop (the script's `issues` list is created
before the `try`). -/
def gosecLoop (project_root : String) : List PyJson → List GosecIssue × Option PyError
  | [] => ([], none)
  | j :: rest =>
    match processGosecIssue project_root j with
    | .ok gi =>
      let (l, e) := gosecLoop project_root rest
      (gi :: l, e)
    | .error e => ([], some e)

/-- `_parse_gosec_output`: parse gosec JSON output.  The `try`/`except`
catches only `JSONDecodeError`, `KeyError` and `ValueError` (returning the
issues accumulated so far); any other exception propagates. -/
def _parse_gosec_output (decoded : Except PyError PyJson) (project_root : String) :
    Except PyError (List GosecIssue) :=
  let r : List GosecIssue × Option PyError :=
    match decoded with
    | .error e => ([], some e)
    | .ok data =>
      match pyInKey "Issues" data with
      | .error e => ([], some e)
      | .ok false => ([], none)
      | .ok true =>
        match pyGetItem data "Issues" with
        | .error e => ([], some e)
        | .ok issuesVal =>
          match pyIterList issuesVal with
          | .error e => ([], some e)
          | .ok items => gosecLoop project_root items
  match r with
  | (issues, none) => .ok issues
  | (issues, some e) =>
    if e == .jsonDecodeError || e == .keyError || e == .valueError then .ok issues
    else .error e

/-! ### Coverage/metric merge (`_build_metrics_section`, lines 1053-1073) -/

/-- The short name of a package path:
`package.split('/')[-1] if '/' in package else package`. -/
def packageShortName (p : String) : String :=
  if pyContains p "/" then (pySplit p "/").getLastD "" else p

/-- The `coverage_map` dict lookup: the map is built by iterating all
coverage entries and assigning `map[short_name] = coverage`, so on duplicate
short names the last entry wins; a missing key yields the default `'N/A'`. -/
def coverageMapGet (coverage_entries : List CoverageEntry) (key : String) : String :=
  match (coverage_entries.filter fun e => packageShortName e.package == key).getLast? with
  | some e => e.coverage
  | none => "N/A"

/-- The per-row coverage resolution of `_build_metrics_section`: the
short-name map lookup, then — whenever the looked-up value is the literal
`'N/A'` (which covers both "no short-name match" and "matched an entry whose
coverage is 'N/A'") — the first entry whose full package path equals the
metric's `full_package`. -/
def resolveCoverage (coverage_entries : List CoverageEntry) (pkg : PackageMetric) : String :=
  let coverage := coverageMapGet coverage_entries pkg.package
  if coverage == "N/A" then
    match coverage_entries.find? (fun e => e.package == pkg.full_package) with
    | some e => e.coverage
    | none => coverage
  else coverage

/-! ### Tier mappings -/

/-- `_get_complexity_emoji`: emoji based on complexity level. -/
def _get_complexity_emoji (complexity : Int) : String :=
  if complexity ≤ 10 then "✅"
  else if complexity ≤ 15 then "⚠️"
  else if complexity ≤ 25 then "🔶"
  else "🔴"

/-- `_get_priority_level`: priority level based on complexity. -/
def _get_priority_level (complexity : Int) : String :=
  if complexity ≥ 26 then "🔴 **Critical**"
  else if complexity ≥ 21 then "🔶 **High**"
  else if complexity ≥ 16 then "⚠️ **Medium**"
  else "✅ **Low**"

/-! ### Report section builders

Each Python builder constructs a local list `sections` and returns
`'\n'.join(sections)`; the Lean `_build_*_section` definitions are those
`sections` lists, and `_report_parts`/`_build_report` below apply the join. -/

/-- A row of the top-complexity table (line 993 of the script). -/
def cycloRow (e : ComplexityEntry) : String :=
  "| " ++ _get_complexity_emoji (e.complexity : Int) ++ " " ++ toString e.complexity ++
  " | `" ++ e.package ++ "` | `" ++ e.function ++ "` | `" ++ e.file ++ "` | " ++
  toString e.line ++ " |"

/-- A row of the above-threshold table (line 1008 of the script). -/
def cycloThresholdRow (e : ComplexityEntry) : String :=
  "| " ++ _get_complexity_emoji (e.complexity : Int) ++ " " ++ toString e.complexity ++
  " | `" ++ e.package ++ "` | `" ++ e.function ++ "` | `" ++ e.file ++ "` | " ++
  toString e.line ++ " | " ++ _get_priority_level (e.complexity : Int) ++ " |"

/-- The `complexity_data[:self.config.top_functions]` slice. -/
def cycloTopSlice (cfg : AnalysisConfig) (complexity_data : List ComplexityEntry) :
    List ComplexityEntry :=
  complexity_data.take cfg.top_functions

/-- The `[e for e in complexity_data if e.complexity > threshold]` filter. -/
def cycloHighSlice (cfg : AnalysisConfig) (complexity_data : List ComplexityEntry) :
    List ComplexityEntry :=
  complexity_data.filter fun e => (e.complexity : Int) > cfg.complexity_threshold

/-- `_build_complexity_section`: the cyclomatic-complexity section (top-N
table — with a placeholder row when there is no data — followed by the
above-threshold table or its all-clear line). -/
def _build_complexity_section (cfg : AnalysisConfig)
    (complexity_data : List ComplexityEntry) : List String :=
  ["| Complexity | Package | Function | File | Line |",
   "|------------|---------|----------|------|------|"] ++
  (if (cycloTopSlice cfg complexity_data).isEmpty then
    ["| - | - | No complexity data available | - | - |"]
   else (cycloTopSlice cfg complexity_data).map cycloRow) ++
  ["\n### Functions Requiring Attention (Complexity > 15)\n"] ++
  (if (cycloHighSlice cfg complexity_data).isEmpty then
    ["✅ **No high-complexity functions found** - All functions are below the complexity threshold!"]
   else
    ["| Complexity | Package | Function | File | Line | Priority |",
     "|------------|---------|----------|------|------|----------|"] ++
    (cycloHighSlice cfg complexity_data).map cycloThresholdRow)

/-- The inline icon of the cognitive-complexity rows (line 1118). -/
def cognitiveIcon (c : Nat) : String :=
  if c > 25 then "🔴" else if c > 15 then "🔶" else if c > 10 then "⚠️" else "✅"

/-- A row of the cognitive-complexity table. -/
def cogRow (e : ComplexityEntry) : String :=
  "| " ++ cognitiveIcon e.complexity ++ " " ++ toString e.complexity ++
  " | `" ++ e.package ++ "` | `" ++ e.function ++ "` | `" ++ e.file ++ "` | " ++
  toString e.line ++ " |"

/-- `_build_cognitive_complexity_section`: the cognitive complexity section;
note the hard-coded `[:10]` slice. -/
def _build_cognitive_complexity_section (cognitive_complexity : List ComplexityEntry) :
    List String :=
  ["## Cognitive Complexity Analysis", "",
   "### Top 10 Most Cognitively Complex Functions", ""] ++
  (if cognitive_complexity.isEmpty then
    ["✅ **No complex functions found** - All functions have low cognitive complexity!"]
   else
    ["| Complexity | Package | Function | File | Line |",
     "|------------|---------|----------|------|------|"] ++
    (cognitive_complexity.take 10).map cogRow) ++
  ["", ""]

/-- The severity icon of the security rows (line 1149). -/
def securityIcon (severity : String) : String :=
  if pyToUpper severity == "HIGH" then "🔴"
  else if pyToUpper severity == "MEDIUM" then "🔶"
  else "🟡"

/-- A row of the security table, with the 100-character details
truncation. -/
def securityRow (i : SecurityIssue) : String :=
  "| " ++ securityIcon i.severity ++ " " ++ i.severity ++ " | `" ++ i.rule ++ "` | `" ++
  i.file ++ "` | " ++ toString i.line ++ " | " ++ pyTake i.details 100 ++
  (if pyLen i.details > 100 then "..." else "") ++ " |"

/-- Severity-bucket membership tests (`severity.upper() == 'HIGH'` etc.). -/
def isHighSeverity (i : SecurityIssue) : Bool := pyToUpper i.severity == "HIGH"

/-- Medium-severity test. -/
def isMediumSeverity (i : SecurityIssue) : Bool := pyToUpper i.severity == "MEDIUM"

/-- Low-severity test. -/
def isLowSeverity (i : SecurityIssue) : Bool := pyToUpper i.severity == "LOW"

/-- `_build_security_section`: the security analysis section.  The header
count uses `len(security_issues)` while the rows are the concatenation of the
HIGH, MEDIUM and LOW buckets. -/
def _build_security_section (security_issues : List SecurityIssue) : List String :=
  ["## Security Analysis Results", ""] ++
  (if security_issues.isEmpty then
    ["✅ **No security issues found** - Great job maintaining secure code!"]
   else
    ["### Security Issues Found: " ++ toString security_issues.length, "",
     "| Severity | Rule | File | Line | Details |",
     "|----------|------|------|------|---------|"] ++
    ((security_issues.filter isHighSeverity ++ security_issues.filter isMediumSeverity ++
      security_issues.filter isLowSeverity).map securityRow)) ++
  ["", ""]

/-- A row of the code-smells table. -/
def smellRow (s : CodeSmell) : String :=
  "| 👃 " ++ pyTitle (pyReplace s.type' "_" " ") ++ " | `" ++ s.file ++ "` | " ++
  toString s.line ++ " | " ++ s.message ++ " |"

/-- `_build_code_smells_section`: the code smells section (first 20 smells,
with an overflow note). -/
def _build_code_smells_section (code_smells : List CodeSmell) : List String :=
  ["## Code Quality Issues", ""] ++
  (if code_smells.isEmpty then
    ["✅ **No code smells detected** - Code is clean and well-structured!"]
   else
    ["### Code Smells Found: " ++ toString code_smells.length, "",
     "| Type | File | Line | Issue |",
     "|------|------|------|-------|"] ++
    (code_smells.take 20).map smellRow ++
    (if code_smells.length > 20 then
      ["*... and " ++ toString (code_smells.length - 20) ++ " more issues*"]
     else [])) ++
  ["", ""]

/-- A row of the architecture table. -/
def archRow (v : ArchitectureViolation) : String :=
  "| 🏗️ " ++ pyTitle (pyReplace v.violation_type "_" " ") ++ " | " ++ v.details ++ " |"

/-- `_build_architecture_section`: the architecture analysis section. -/
def _build_architecture_section (violations : List ArchitectureViolation) : List String :=
  ["## Architecture Analysis", ""] ++
  (if violations.isEmpty then
    ["✅ **Clean Architecture Maintained** - No dependency violations detected!"]
   else
    ["### Architecture Violations Found: " ++ toString violations.length, "",
     "| Type | Details |", "|------|---------|"] ++
    violations.map archRow) ++
  ["", ""]

/-- A row of the go vet table. -/
def vetRow (i : VetIssue) : String :=
  "| `" ++ i.file ++ "` | " ++ i.line ++ " | " ++ i.col ++ " | " ++ i.message ++ " |"

/-- `_build_vet_section`: the go vet analysis section. -/
def _build_vet_section (vet_issues : List VetIssue) : List String :=
  ["## Go Vet Analysis", ""] ++
  (if vet_issues.isEmpty then
    ["✅ **No go vet issues found** - Code passes all built-in static checks!"]
   else
    ["### Go Vet Issues Found: " ++ toString vet_issues.length, "",
     "| File | Line | Column | Issue |", "|------|------|--------|-------|"] ++
    vet_issues.map vetRow) ++
  ["", ""]

/-- A row of the staticcheck table. -/
def staticcheckRow (i : StaticcheckIssue) : String :=
  "| `" ++ i.file ++ "` | " ++ i.line ++ " | " ++ i.col ++ " | " ++ i.message ++
  " | `" ++ i.rule ++ "` |"

/-- `_build_staticcheck_section`: the staticcheck analysis section. -/
def _build_staticcheck_section (staticcheck_issues : List StaticcheckIssue) : List String :=
  ["## Staticcheck Analysis", ""] ++
  (if staticcheck_issues.isEmpty then
    ["✅ **No staticcheck issues found** - Code meets advanced static analysis standards!"]
   else
    ["### Staticcheck Issues Found: " ++ toString staticcheck_issues.length, "",
     "| File | Line | Column | Issue | Rule |", "|------|------|--------|-------|------|"] ++
    staticcheck_issues.map staticcheckRow) ++
  ["", ""]

/-- A row of the dead-code table. -/
def deadcodeRow (i : DeadItem) : String :=
  "| `" ++ i.file ++ "` | " ++ i.line ++ " | " ++ i.col ++ " | " ++ i.message ++ " |"

/-- `_build_deadcode_section`: the dead code analysis section. -/
def _build_deadcode_section (deadcode_items : List DeadItem) : List String :=
  ["## Dead Code Analysis", ""] ++
  (if deadcode_items.isEmpty then
    ["✅ **No unused code found** - All functions are properly utilized!"]
   else
    ["### Unused Code Found: " ++ toString deadcode_items.length, "",
     "| File | Line | Column | Unused Item |", "|------|------|--------|-------------|"] ++
    deadcode_items.map deadcodeRow) ++
  ["", ""]

/-- A row of the vulnerability table. -/
def vulnRow (v : Vulnerability) : String :=
  "| 🚨 " ++ pyTitle v.type' ++ " | " ++ v.message ++ " |"

/-- `_build_vulnerability_section`: the govulncheck section. -/
def _build_vulnerability_section (vulnerabilities : List Vulnerability) : List String :=
  ["## Vulnerability Analysis (govulncheck)", ""] ++
  (if vulnerabilities.isEmpty then
    ["✅ **No known vulnerabilities found** - Dependencies are secure!"]
   else
    ["### Known Vulnerabilities Found: " ++ toString vulnerabilities.length, "",
     "| Type | Details |", "|------|---------|"] ++
    vulnerabilities.map vulnRow) ++
  ["", ""]

/-- A row of the static-analysis (golangci-lint) table. -/
def golangciRow (i : GolangciIssue) : String :=
  "| `" ++ i.file ++ "` | " ++ i.line ++ " | " ++ i.col ++ " | " ++ i.message ++
  " | `" ++ i.linter ++ "` |"

/-- `_build_static_analysis_section`: the golangci-lint section: an optional
warning block when `error` is set, then the issue table when there are
issues, or the all-clear line only when `success` is true. -/
def _build_static_analysis_section (static_analysis : StaticAnalysisResult) : List String :=
  ["\n## Static Analysis Results\n"] ++
  (match static_analysis.error with
   | some err =>
     ["### Configuration Issues\n",
      "⚠️ **Warning**: There were issues running static analysis:",
      "```\n" ++ err ++ "\n```\n"]
   | none => []) ++
  (if !static_analysis.issues.isEmpty then
    ["### Code Quality Issues\n",
     "| File | Line | Column | Issue | Linter |",
     "|------|------|--------|-------|--------|"] ++
    static_analysis.issues.map golangciRow
   else if static_analysis.success then
    ["✅ **No code quality issues found!**"]
   else [])

/-- A row of the per-package metrics table, with the coverage column resolved
by `resolveCoverage`. -/
def metricsPkgRow (coverage_entries : List CoverageEntry) (pkg : PackageMetric) : String :=
  "| `" ++ pkg.package ++ "` | " ++ toString pkg.go_files ++ " | " ++
  toString pkg.test_files ++ " | " ++ pyCommaFmt pkg.lines ++ " | " ++
  pyCommaFmt pkg.test_lines ++ " | " ++ resolveCoverage coverage_entries pkg ++ " |"

/-- The totals row of the per-package metrics table. -/
def metricsTotalRow (pm : List PackageMetric) : String :=
  "| **TOTAL** | **" ++ toString (pm.foldl (fun a p => a + p.go_files) 0) ++
  "** | **" ++ toString (pm.foldl (fun a p => a + p.test_files) 0) ++
  "** | **" ++ pyCommaFmt (pm.foldl (fun a p => a + p.lines) 0) ++
  "** | **" ++ pyCommaFmt (pm.foldl (fun a p => a + p.test_lines) 0) ++ "** | - |"

/-- A row of the coverage summary table. -/
def coverageSummaryRow (e : CoverageEntry) : String :=
  "| `" ++ packageShortName e.package ++ "` | " ++
  (if pyStartsWith e.status "ok" then "✅" else "❌") ++ " " ++ e.status ++
  " | " ++ e.coverage ++ " |"

/-- `_build_metrics_section`: the code metrics section (project overview,
per-package table with totals — or the plain fallback line — and the coverage
summary table, with an error row when there are no coverage entries). -/
def _build_metrics_section (metrics : CodeMetrics) : List String :=
  ["\n## Code Metrics\n",
   "### Project Overview\n",
   "- **Total Lines of Code:** " ++ pyCommaFmt metrics.total_lines,
   "- **Go Files:** " ++ toString metrics.go_files,
   "- **Packages:** " ++ toString metrics.packages,
   "\n### Package Details\n"] ++
  (if !metrics.package_metrics.isEmpty then
    ["| Package | Go Files | Test Files | Lines | Test Lines | Test Coverage |",
     "|---------|----------|------------|-------|------------|---------------|"] ++
    metrics.package_metrics.map (metricsPkgRow metrics.coverage_entries) ++
    [metricsTotalRow metrics.package_metrics]
   else ["No package metrics available"]) ++
  ["\n### Test Coverage Summary\n",
   "| Package | Status | Coverage |",
   "|---------|--------|----------|"] ++
  (if !metrics.coverage_entries.isEmpty then
    metrics.coverage_entries.map coverageSummaryRow
   else ["| - | ❌ Error | Unable to run tests |"])

/-- `_build_header`: the fixed report header. -/
def _build_header : String :=
  "# Code Analysis Report\n\n*Generated automatically by `make analyze-code`*\n\n## Overview\n\nThis report provides comprehensive code analysis including complexity, security, maintainability metrics, and recommendations for the project.\n\n## Cyclomatic Complexity Analysis\n\n### Top 10 Most Complex Functions\n\n"

/-- `_build_guidelines_section`: the fixed complexity-guidelines boilerplate
(ending with the `## Analysis Timestamp` heading the footer completes). -/
def _build_guidelines_section : String :=
  "\n## Complexity Guidelines\n\n### Cyclomatic Complexity Scale\n\n| Range | Level | Icon | Description | Action Required |\n|-------|-------|------|-------------|-----------------|\n| 1-10 | Simple | ✅ | Easy to test and maintain | None - keep as is |\n| 11-15 | Moderate | ⚠️ | Consider refactoring for clarity | Review and monitor |\n| 16-25 | High | 🔶 | Should be refactored | Plan refactoring |\n| 26+ | Very High | 🔴 | Requires immediate attention | Refactor immediately |\n\n### Recommendations\n\nBased on the analysis above:\n\n1. **High Priority**: Functions with complexity > 20 should be refactored immediately\n2. **Medium Priority**: Functions with complexity 15-20 should be reviewed and possibly split\n3. **Test Functions**: High complexity in test functions may indicate need for test helpers or sub-tests\n4. **Maintain Coverage**: Keep test coverage above 80% while reducing complexity\n\n### Refactoring Strategies\n\n- **Extract Method**: Break large functions into smaller, focused functions\n- **Extract Class/Package**: Group related functionality\n- **Use Table-Driven Tests**: Reduce complexity in test functions\n- **State Machines**: For complex conditional logic\n- **Strategy Pattern**: For multiple algorithmic approaches\n\n## Analysis Timestamp\n"

/-- `_build_footer`: the report footer.  `datetime.now().strftime(...)` is
the one impure input of the assembler; it is modelled as the explicit
`timestamp` argument. -/
def _build_footer (cfg : AnalysisConfig) (timestamp : String) : String :=
  "\n**Generated:** " ++ timestamp ++
  "\n\n---\n\n*To regenerate this report, run: `make analyze-code`*\n*Report location: `" ++
  cfg.output_file ++ "`*\n"

/-- The `report_parts` list of `_build_report`, in the fixed section order of
the script (each list-valued section builder joined with `'\n'` exactly as
its Python counterpart returns). -/
def _report_parts (cfg : AnalysisConfig) (timestamp : String)
    (complexity_data cognitive_complexity : List ComplexityEntry)
    (static_analysis : StaticAnalysisResult)
    (vet_analysis : List VetIssue) (staticcheck_analysis : List StaticcheckIssue)
    (security_issues : List SecurityIssue) (vulnerabilities : List Vulnerability)
    (code_smells : List CodeSmell) (deadcode_analysis : List DeadItem)
    (architecture_violations : List ArchitectureViolation)
    (metrics : CodeMetrics) : List String :=
  [_build_header,
   pyJoin "\n" (_build_complexity_section cfg complexity_data),
   pyJoin "\n" (_build_cognitive_complexity_section cognitive_complexity),
   pyJoin "\n" (_build_static_analysis_section static_analysis),
   pyJoin "\n" (_build_vet_section vet_analysis),
   pyJoin "\n" (_build_staticcheck_section staticcheck_analysis),
   pyJoin "\n" (_build_security_section security_issues),
   pyJoin "\n" (_build_vulnerability_section vulnerabilities),
   pyJoin "\n" (_build_code_smells_section code_smells),
   pyJoin "\n" (_build_deadcode_section deadcode_analysis),
   pyJoin "\n" (_build_architecture_section architecture_violations),
   pyJoin "\n" (_build_metrics_section metrics),
   _build_guidelines_section,
   _build_footer cfg timestamp]

/-- `_build_report`: the complete markdown report,
`'\n'.join(report_parts)`. -/
def _build_report (cfg : AnalysisConfig) (timestamp : String)
    (complexity_data cognitive_complexity : List ComplexityEntry)
    (static_analysis : StaticAnalysisResult)
    (vet_analysis : List VetIssue) (staticcheck_analysis : List StaticcheckIssue)
    (security_issues : List SecurityIssue) (vulnerabilities : List Vulnerability)
    (code_smells : List CodeSmell) (deadcode_analysis : List DeadItem)
    (architecture_violations : List ArchitectureViolation)
    (metrics : CodeMetrics) : String :=
  pyJoin "\n" (_report_parts cfg timestamp complexity_data cognitive_complexity
    static_analysis vet_analysis staticcheck_analysis security_issues vulnerabilities
    code_smells deadcode_analysis architecture_violations metrics)

/-! ### Spec-side resolution procedures (for the coverage-merge claim)

`claimResolveCoverage` follows the claim's words literally; it differs from
the script's `resolveCoverage`.  `amendedResolveCoverage` follows the amended
wording and is proved equal to `resolveCoverage` below. -/

/-- Modelled from the claim's words: resolve by a coverage entry whose short
package name exactly equals the metric's short name; only if none matches,
fall back to an exact full-path match; only if still none, render `"N/A"`. -/
def claimResolveCoverage (coverage_entries : List CoverageEntry) (pkg : PackageMetric) :
    String :=
  match coverage_entries.find? (fun e => packageShortName e.package == pkg.package) with
  | some e => e.coverage
  | none =>
    match coverage_entries.find? (fun e => e.package == pkg.full_package) with
    | some e => e.coverage
    | none => "N/A"

/-- Modelled from the amended wording: resolve by the short-name map lookup
(later entries overwrite earlier ones on equal short names); whenever the
looked-up value is absent or is the literal `"N/A"`, fall back to the first
entry whose full package path equals the metric's full path; if none,
`"N/A"`. -/
def amendedResolveCoverage (coverage_entries : List CoverageEntry) (pkg : PackageMetric) :
    String :=
  let v := coverageMapGet coverage_entries pkg.package
  if v = "N/A" then
    match coverage_entries.find? (fun e => e.package == pkg.full_package) with
    | some e => e.coverage
    | none => "N/A"
  else v

/-! ### Helper lemmas about the stable descending sort -/

/-- Inserting into the stable descending order yields a permutation of the
cons. -/
theorem insertDesc_perm (x : ComplexityEntry) (l : List ComplexityEntry) :
    (insertDesc x l).Perm (x :: l) := by
  induction l with
  | nil => simp [insertDesc]
  | cons h t ih =>
    simp only [insertDesc]
    split
    · exact (ih.cons h).trans (List.Perm.swap x h t)
    · exact List.Perm.refl _

/-- The sort permutes its input. -/
theorem sortedByComplexityDesc_perm (l : List ComplexityEntry) :
    (sortedByComplexityDesc l).Perm l := by
  induction l with
  | nil => simp [sortedByComplexityDesc]
  | cons x xs ih => exact (insertDesc_perm x _).trans (ih.cons x)

/-- Insertion preserves the non-increasing-complexity invariant. -/
theorem insertDesc_pairwise (x : ComplexityEntry) {l : List ComplexityEntry}
    (hl : l.Pairwise (fun a b => b.complexity ≤ a.complexity)) :
    (insertDesc x l).Pairwise (fun a b => b.complexity ≤ a.complexity) := by
  induction l with
  | nil => simp [insertDesc]
  | cons h t ih =>
    obtain ⟨hh, ht⟩ := List.pairwise_cons.mp hl
    simp only [insertDesc]
    split
    · refine List.pairwise_cons.mpr ⟨?_, ih ht⟩
      intro y hy
      rcases List.mem_cons.mp ((insertDesc_perm x t).mem_iff.mp hy) with rfl | hyt
      · omega
      · exact hh y hyt
    · refine List.pairwise_cons.mpr ⟨?_, hl⟩
      intro y hy
      rcases List.mem_cons.mp hy with rfl | hyt
      · omega
      · have := hh y hyt; omega

/-- The sort's output is non-increasing in complexity. -/
theorem sortedByComplexityDesc_pairwise (l : List ComplexityEntry) :
    (sortedByComplexityDesc l).Pairwise (fun a b => b.complexity ≤ a.complexity) := by
  induction l with
  | nil => simp [sortedByComplexityDesc]
  | cons x xs ih => exact insertDesc_pairwise x ih

/-- Insertion does not disturb the subsequence of entries of any fixed
complexity `c`: the elements skipped over are strictly greater, so the
inserted element lands before every equal-complexity element. -/
theorem insertDesc_filter (x : ComplexityEntry) (l : List ComplexityEntry) (c : Nat) :
    (insertDesc x l).filter (fun e => e.complexity == c) =
      (x :: l).filter (fun e => e.complexity == c) := by
  induction l with
  | nil => rfl
  | cons h t ih =>
    simp only [insertDesc]
    split
    · rename_i hlt
      rcases eq_or_ne x.complexity c with hx | hx
      · have hh : ¬(h.complexity = c) := by omega
        simp [List.filter_cons, hx, hh, ih]
      · simp [List.filter_cons, hx, ih]
    · rfl

/-- Stability: for every complexity value `c`, the sorted list restricted to
complexity `c` is the input restricted to complexity `c`, in input order. -/
theorem sortedByComplexityDesc_filter (l : List ComplexityEntry) (c : Nat) :
    (sortedByComplexityDesc l).filter (fun e => e.complexity == c) =
      l.filter (fun e => e.complexity == c) := by
  induction l with
  | nil => rfl
  | cons x xs ih =>
    simp only [sortedByComplexityDesc]
    rw [insertDesc_filter]
    simp [List.filter_cons, ih]

/-! ### String-append cancellation (for the determinism claim) -/

/-- Characters of an appended string. -/
theorem strDataAppend (a b : String) : (a ++ b).data = a.data ++ b.data := by
  cases a; cases b; rfl

/-- Left cancellation of string append. -/
theorem strAppendCancelLeft (a x y : String) : a ++ x = a ++ y ↔ x = y := by
  constructor
  · intro h
    have h2 : a.data ++ x.data = a.data ++ y.data := by
      have h1 := congrArg String.data h
      simpa [strDataAppend] using h1
    have h3 : x.data = y.data := List.append_cancel_left h2
    cases x; cases y; exact congrArg String.mk h3
  · intro h; rw [h]

/-- Right cancellation of string append. -/
theorem strAppendCancelRight (x y a : String) : x ++ a = y ++ a ↔ x = y := by
  constructor
  · intro h
    have h2 : x.data ++ a.data = y.data ++ a.data := by
      have h1 := congrArg String.data h
      simpa [strDataAppend] using h1
    have h3 : x.data = y.data := List.append_cancel_right h2
    cases x; cases y; exact congrArg String.mk h3
  · intro h; rw [h]

/-! ### Claim theorems -/

/-- C1: the complexity ranking sort is descending by the complexity field and
stable: for every input list, the output is a permutation of the input that
is non-increasing in complexity (so entries with strictly greater complexity
come first), and for every complexity value the equal-complexity entries keep
their original input order (the filtered subsequence is unchanged); in
particular, four parsed entries with complexities `[10, 26, 26, 5]` come out
as first-seen 26, second-seen 26, 10, 5. -/
theorem complexity_sort_stable_desc :
    (∀ l : List ComplexityEntry,
      (sortedByComplexityDesc l).Perm l ∧
      (sortedByComplexityDesc l).Pairwise (fun a b => b.complexity ≤ a.complexity) ∧
      ∀ c : Nat, (sortedByComplexityDesc l).filter (fun e => e.complexity == c) =
        l.filter (fun e => e.complexity == c)) ∧
    _parse_complexity_output
        "10 p a f.go:1:1\n26 p b f.go:2:1\n26 p c f.go:3:1\n5 p d f.go:4:1" =
      [⟨26, "p", "b", "f.go", 2⟩, ⟨26, "p", "c", "f.go", 3⟩,
       ⟨10, "p", "a", "f.go", 1⟩, ⟨5, "p", "d", "f.go", 4⟩] := by
  refine ⟨fun l => ⟨sortedByComplexityDesc_perm l, sortedByComplexityDesc_pairwise l,
    fun c => sortedByComplexityDesc_filter l c⟩, ?_⟩
  rfl

/-- C2 counterexample: the claim says an empty-input section is a single
all-clear sentence with a celebratory marker — but the cyclomatic-complexity
section at empty input is five lines that still include the table header and
a placeholder table row, and the metrics section at fully empty input
contains no line carrying the celebratory marker at all. -/
theorem complexity_section_empty_counterexample :
    (_build_complexity_section defaultAnalysisConfig []).length = 5 ∧
    (_build_complexity_section defaultAnalysisConfig [])[0]? =
      some "| Complexity | Package | Function | File | Line |" ∧
    (_build_complexity_section defaultAnalysisConfig [])[2]? =
      some "| - | - | No complexity data available | - | - |" ∧
    ((_build_metrics_section ⟨0, 0, 0, [], []⟩).any fun s => pyStartsWith s "✅") = false :=
  ⟨rfl, rfl, rfl, rfl⟩

/-- C2 (amended): the dual shape — a data table exactly when the input list
is nonempty, a single all-clear line with the celebratory marker exactly when
it is empty — holds for the cognitive-complexity, security, vulnerability,
code-smells, dead-code, architecture, go-vet and staticcheck sections; the
cyclomatic-complexity section instead renders a placeholder table row plus a
separate above-threshold all-clear line when its input is empty, and the
metrics section renders the plain fallback text `No package metrics
available` (and an error table row when coverage is empty), with no
celebratory marker. -/
theorem section_dual_shape_amended
    (cog : List ComplexityEntry) (sec : List SecurityIssue) (vu : List Vulnerability)
    (sm : List CodeSmell) (dc : List DeadItem) (ar : List ArchitectureViolation)
    (ve : List VetIssue) (st : List StaticcheckIssue) (cfg : AnalysisConfig)
    (tl gf pk : Nat) (ce : List CoverageEntry) :
    (_build_cognitive_complexity_section [] =
      ["## Cognitive Complexity Analysis", "",
       "### Top 10 Most Cognitively Complex Functions", "",
       "✅ **No complex functions found** - All functions have low cognitive complexity!",
       "", ""]) ∧
    (cog ≠ [] → _build_cognitive_complexity_section cog =
      ["## Cognitive Complexity Analysis", "",
       "### Top 10 Most Cognitively Complex Functions", "",
       "| Complexity | Package | Function | File | Line |",
       "|------------|---------|----------|------|------|"] ++
      (cog.take 10).map cogRow ++ ["", ""]) ∧
    (_build_security_section [] =
      ["## Security Analysis Results", "",
       "✅ **No security issues found** - Great job maintaining secure code!", "", ""]) ∧
    (sec ≠ [] → _build_security_section sec =
      ["## Security Analysis Results", "",
       "### Security Issues Found: " ++ toString sec.length, "",
       "| Severity | Rule | File | Line | Details |",
       "|----------|------|------|------|---------|"] ++
      (sec.filter isHighSeverity ++ sec.filter isMediumSeverity ++
        sec.filter isLowSeverity).map securityRow ++ ["", ""]) ∧
    (_build_vulnerability_section [] =
      ["## Vulnerability Analysis (govulncheck)", "",
       "✅ **No known vulnerabilities found** - Dependencies are secure!", "", ""]) ∧
    (vu ≠ [] → _build_vulnerability_section vu =
      ["## Vulnerability Analysis (govulncheck)", "",
       "### Known Vulnerabilities Found: " ++ toString vu.length, "",
       "| Type | Details |", "|------|---------|"] ++
      vu.map vulnRow ++ ["", ""]) ∧
    (_build_code_smells_section [] =
      ["## Code Quality Issues", "",
       "✅ **No code smells detected** - Code is clean and well-structured!", "", ""]) ∧
    (sm ≠ [] → _build_code_smells_section sm =
      ["## Code Quality Issues", "",
       "### Code Smells Found: " ++ toString sm.length, "",
       "| Type | File | Line | Issue |", "|------|------|------|-------|"] ++
      (sm.take 20).map smellRow ++
      (if sm.length > 20 then ["*... and " ++ toString (sm.length - 20) ++ " more issues*"]
       else []) ++ ["", ""]) ∧
    (_build_deadcode_section [] =
      ["## Dead Code Analysis", "",
       "✅ **No unused code found** - All functions are properly utilized!", "", ""]) ∧
    (dc ≠ [] → _build_deadcode_section dc =
      ["## Dead Code Analysis", "",
       "### Unused Code Found: " ++ toString dc.length, "",
       "| File | Line | Column | Unused Item |", "|------|------|--------|-------------|"] ++
      dc.map deadcodeRow ++ ["", ""]) ∧
    (_build_architecture_section [] =
      ["## Architecture Analysis", "",
       "✅ **Clean Architecture Maintained** - No dependency violations detected!", "", ""]) ∧
    (ar ≠ [] → _build_architecture_section ar =
      ["## Architecture Analysis", "",
       "### Architecture Violations Found: " ++ toString ar.length, "",
       "| Type | Details |", "|------|---------|"] ++
      ar.map archRow ++ ["", ""]) ∧
    (_build_vet_section [] =
      ["## Go Vet Analysis", "",
       "✅ **No go vet issues found** - Code passes all built-in static checks!", "", ""]) ∧
    (ve ≠ [] → _build_vet_section ve =
      ["## Go Vet Analysis", "",
       "### Go Vet Issues Found: " ++ toString ve.length, "",
       "| File | Line | Column | Issue |", "|------|------|--------|-------|"] ++
      ve.map vetRow ++ ["", ""]) ∧
    (_build_staticcheck_section [] =
      ["## Staticcheck Analysis", "",
       "✅ **No staticcheck issues found** - Code meets advanced static analysis standards!",
       "", ""]) ∧
    (st ≠ [] → _build_staticcheck_section st =
      ["## Staticcheck Analysis", "",
       "### Staticcheck Issues Found: " ++ toString st.length, "",
       "| File | Line | Column | Issue | Rule |", "|------|------|--------|-------|------|"] ++
      st.map staticcheckRow ++ ["", ""]) ∧
    (_build_complexity_section cfg [] =
      ["| Complexity | Package | Function | File | Line |",
       "|------------|---------|----------|------|------|",
       "| - | - | No complexity data available | - | - |",
       "\n### Functions Requiring Attention (Complexity > 15)\n",
       "✅ **No high-complexity functions found** - All functions are below the complexity threshold!"]) ∧
    (_build_metrics_section ⟨tl, gf, pk, ce, []⟩ =
      ["\n## Code Metrics\n", "### Project Overview\n",
       "- **Total Lines of Code:** " ++ pyCommaFmt tl,
       "- **Go Files:** " ++ toString gf,
       "- **Packages:** " ++ toString pk,
       "\n### Package Details\n",
       "No package metrics available",
       "\n### Test Coverage Summary\n",
       "| Package | Status | Coverage |",
       "|---------|--------|----------|"] ++
      (if !ce.isEmpty then ce.map coverageSummaryRow
       else ["| - | ❌ Error | Unable to run tests |"])) := by
  refine ⟨rfl, ?_, rfl, ?_, rfl, ?_, rfl, ?_, rfl, ?_, rfl, ?_, rfl, ?_, rfl, ?_,
    ?_, ?_⟩
  · intro h; obtain ⟨x, xs, rfl⟩ := List.exists_cons_of_ne_nil h
    simp [_build_cognitive_complexity_section]
  · intro h; obtain ⟨x, xs, rfl⟩ := List.exists_cons_of_ne_nil h
    simp [_build_security_section]
  · intro h; obtain ⟨x, xs, rfl⟩ := List.exists_cons_of_ne_nil h
    simp [_build_vulnerability_section]
  · intro h; obtain ⟨x, xs, rfl⟩ := List.exists_cons_of_ne_nil h
    simp [_build_code_smells_section]
  · intro h; obtain ⟨x, xs, rfl⟩ := List.exists_cons_of_ne_nil h
    simp [_build_deadcode_section]
  · intro h; obtain ⟨x, xs, rfl⟩ := List.exists_cons_of_ne_nil h
    simp [_build_architecture_section]
  · intro h; obtain ⟨x, xs, rfl⟩ := List.exists_cons_of_ne_nil h
    simp [_build_vet_section]
  · intro h; obtain ⟨x, xs, rfl⟩ := List.exists_cons_of_ne_nil h
    simp [_build_staticcheck_section]
  · simp [_build_complexity_section, cycloTopSlice, cycloHighSlice]
  · simp [_build_metrics_section]

/-- C2 witness: the go-vet conjunct of the amended dual-shape theorem applied
to a concrete singleton issue list, with its nonemptiness hypothesis
discharged. -/
theorem section_dual_shape_amended_witness :
    ([(⟨"a.go", "1", "2", "msg"⟩ : VetIssue)] ≠ []) ∧
    _build_vet_section [⟨"a.go", "1", "2", "msg"⟩] =
      ["## Go Vet Analysis", "",
       "### Go Vet Issues Found: " ++ toString [(⟨"a.go", "1", "2", "msg"⟩ : VetIssue)].length,
       "",
       "| File | Line | Column | Issue |", "|------|------|--------|-------|"] ++
      [(⟨"a.go", "1", "2", "msg"⟩ : VetIssue)].map vetRow ++ ["", ""] :=
  ⟨by decide,
   (section_dual_shape_amended [] [] [] [] [] [] [⟨"a.go", "1", "2", "msg"⟩] []
      defaultAnalysisConfig 0 0 0 []).2.2.2.2.2.2.2.2.2.2.2.2.2.1 (by decide)⟩

/-- C3: the gosec parser is not total — on the well-formed JSON text
`{"Issues": [{"line": null}]}` (decoded here to its `PyJson` value) the
script reaches `int(issue.get('line', 0))` with `None` and raises
`TypeError`, which is not in the `except (json.JSONDecodeError, KeyError,
ValueError)` tuple, so the exception escapes the parser boundary instead of
yielding an empty sequence. -/
theorem gosec_parser_typeerror_escape :
    _parse_gosec_output
      (Except.ok (PyJson.obj [("Issues", PyJson.arr [PyJson.obj [("line", PyJson.null)]])]))
      "/root/project" = Except.error PyError.typeError := rfl

/-- C4 counterexample: with the top-functions count configured to 3 and
eleven parsed entries (complexities 11 down to 1), the cyclomatic section has
7 lines (2 table-header lines, 3 data rows, the attention heading, and the
below-threshold all-clear line) while the cognitive section has 18 lines
(4 heading lines, 2 table-header lines, 10 data rows — the hard-coded
`[:10]` slice — and 2 trailing blanks); the claim says both sections would
show 3 rows. -/
theorem topn_cognitive_hardcoded_counterexample :
    (_build_complexity_section
        ⟨"docs/code_analysis.md", 15, 3, true, true, true, ["demo/", "interfaces.go"], [], true,
         "Go Project", "github.com/*/batchexec"⟩
        ((List.range 11).map fun i => ⟨11 - i, "p", "f", "a.go", i + 1⟩)).length = 7 ∧
    (_build_cognitive_complexity_section
        ((List.range 11).map fun i => ⟨11 - i, "p", "f", "a.go", i + 1⟩)).length = 18 :=
  ⟨rfl, rfl⟩

/-- C4 (amended): the cyclomatic top-N slice takes exactly the first
`top_functions` entries after the descending-stable sort (`min N length`
rows), while the cognitive-complexity section always shows the first 10
entries regardless of the configuration (its builder does not read the
configuration at all): its line count is `8 + min 10 length` for nonempty
input. -/
theorem topn_selection_amended (cfg : AnalysisConfig) (l lc : List ComplexityEntry) :
    (cycloTopSlice cfg l).length = min cfg.top_functions l.length ∧
    (_build_cognitive_complexity_section lc).length =
      (if lc.isEmpty then 7 else 8 + min 10 lc.length) := by
  constructor
  · simp [cycloTopSlice]
  · cases lc with
    | nil => rfl
    | cons x xs =>
      simp [_build_cognitive_complexity_section]
      omega

/-- C5 counterexample: under the default configuration the
exclude-public-interfaces toggle is enabled, yet the entry in file
`interfaces.go` with message `unreachable func: Foo.bar` — whose extracted
identifier `bar` does not start with an uppercase character — is suppressed
anyway, because the default `deadcode_exclude_files` list contains
`interfaces.go` and its file-pattern filter runs first; the claim's
"kept when lowercase" direction therefore fails. -/
theorem deadcode_interfaces_default_config_counterexample :
    _filter_deadcode_results defaultAnalysisConfig
      [⟨"interfaces.go", "12", "3", "unreachable func: Foo.bar"⟩] = [] ∧
    pyIsUpperFirst (deadcodeFuncName "unreachable func: Foo.bar") = false :=
  ⟨rfl, rfl⟩

/-- C5 (amended): when the exclude-public-interfaces toggle is enabled and
the entry is not already dropped by the file-pattern or function-substring
filters (note the default configuration's file patterns include
`interfaces.go`, which drops every such entry first), an entry whose file
name ends with `interfaces.go` and whose message contains
`unreachable func:` is suppressed if and only if the identifier after the
last `.` of the trailing function name (or the whole identifier when it has
no `.`) starts with an uppercase character. -/
theorem deadcode_public_interface_filter_amended (cfg : AnalysisConfig) (item : DeadItem)
    (htoggle : cfg.deadcode_exclude_public_interfaces = true)
    (hfile : pyEndsWith item.file "interfaces.go" = true)
    (hmsg : pyContains item.message "unreachable func:" = true)
    (hnf : deadcodeFileExcluded cfg item.file = false)
    (hnm : deadcodeFuncExcluded cfg item.message = false) :
    _filter_deadcode_results cfg [item] = [] ↔
      pyIsUpperFirst (deadcodeFuncName item.message) = true := by
  unfold _filter_deadcode_results deadcodePublicInterfaceSkip
  cases hup : pyIsUpperFirst (deadcodeFuncName item.message) <;>
    simp [List.filter, htoggle, hfile, hmsg, hnf, hnm, hup]

/-- C5 witness: with empty exclude lists and the toggle on, the uppercase
entry `unreachable func: OSCmd.Run` in `pkg/interfaces.go` is suppressed. -/
theorem deadcode_public_interface_filter_amended_witness :
    _filter_deadcode_results
      ⟨"docs/code_analysis.md", 15, 10, true, true, true, [], [], true,
       "Go Project", "github.com/*/batchexec"⟩
      [⟨"pkg/interfaces.go", "10", "1", "unreachable func: OSCmd.Run"⟩] = [] :=
  (deadcode_public_interface_filter_amended
    ⟨"docs/code_analysis.md", 15, 10, true, true, true, [], [], true,
     "Go Project", "github.com/*/batchexec"⟩
    ⟨"pkg/interfaces.go", "10", "1", "unreachable func: OSCmd.Run"⟩
    rfl rfl rfl rfl rfl).mpr rfl

/-- C6 counterexample: with coverage entries `a/config` (coverage `N/A`) and
`weird` (coverage `50.0%`) and a metric row with short name `config` and full
path `weird`, exactly one coverage entry matches the short name (the `N/A`
one), so the claim's procedure resolves to `N/A`; the code resolves to
`50.0%`, because its full-path fallback fires whenever the short-name lookup
produced the literal `N/A` — even though a short-name match exists. -/
theorem coverage_merge_counterexample :
    resolveCoverage [⟨"a/config", "ok", "N/A", false⟩, ⟨"weird", "ok", "50.0%", false⟩]
        ⟨"config", "weird", 1, 1, 10, 10⟩ = "50.0%" ∧
    ([(⟨"a/config", "ok", "N/A", false⟩ : CoverageEntry), ⟨"weird", "ok", "50.0%", false⟩].filter
        fun e => packageShortName e.package == "config") = [⟨"a/config", "ok", "N/A", false⟩] ∧
    claimResolveCoverage [⟨"a/config", "ok", "N/A", false⟩, ⟨"weird", "ok", "50.0%", false⟩]
        ⟨"config", "weird", 1, 1, 10, 10⟩ = "N/A" :=
  ⟨rfl, rfl, rfl⟩

/-- C6 (amended): the coverage column is resolved by the short-name map
lookup (later entries overwrite earlier ones on equal short names); whenever
the looked-up value is absent or is the literal `N/A`, the code falls back to
the first coverage entry whose full package path equals the metric's full
path; if that also fails, `N/A` is rendered — the code's resolution equals
this amended procedure on every input. -/
theorem coverage_merge_amended (entries : List CoverageEntry) (pkg : PackageMetric) :
    resolveCoverage entries pkg = amendedResolveCoverage entries pkg := by
  unfold resolveCoverage amendedResolveCoverage
  by_cases h : coverageMapGet entries pkg.package = "N/A" <;> simp [h]

/-- C7: both complexity-to-label mappings have exactly the claimed
boundaries, for every integer complexity value: display tiers `≤ 10 → ✅`,
`11..15 → ⚠️`, `16..25 → 🔶`, `≥ 26 → 🔴`, and priority tiers `< 16 → Low`,
`16..20 → Medium`, `21..25 → High`, `≥ 26 → Critical`. -/
theorem complexity_tier_boundaries (c : Int) :
    (c ≤ 10 → _get_complexity_emoji c = "✅") ∧
    (11 ≤ c → c ≤ 15 → _get_complexity_emoji c = "⚠️") ∧
    (16 ≤ c → c ≤ 25 → _get_complexity_emoji c = "🔶") ∧
    (26 ≤ c → _get_complexity_emoji c = "🔴") ∧
    (c < 16 → _get_priority_level c = "✅ **Low**") ∧
    (16 ≤ c → c ≤ 20 → _get_priority_level c = "⚠️ **Medium**") ∧
    (21 ≤ c → c ≤ 25 → _get_priority_level c = "🔶 **High**") ∧
    (26 ≤ c → _get_priority_level c = "🔴 **Critical**") := by
  unfold _get_complexity_emoji _get_priority_level
  refine ⟨?_, ?_, ?_, ?_, ?_, ?_, ?_, ?_⟩ <;> intros <;> split_ifs <;> first | rfl | omega

/-- C7 witness: the moderate display tier at 12 and the high priority tier
at 22, with the interval hypotheses discharged. -/
theorem complexity_tier_boundaries_witness :
    _get_complexity_emoji 12 = "⚠️" ∧ _get_priority_level 22 = "🔶 **High**" :=
  ⟨(complexity_tier_boundaries 12).2.1 (by decide) (by decide),
   (complexity_tier_boundaries 22).2.2.2.2.2.2.1 (by decide) (by decide)⟩

/-- C8: the cyclomatic-complexity parser maps the line
`7 main main main.go:5:1` to exactly the one entry
`{complexity := 7, package := "main", function := "main", file := "main.go",
line := 5}`, and the same line without the trailing column fails the grammar
and yields no entry. -/
theorem parse_complexity_line_example :
    _parse_complexity_output "7 main main main.go:5:1" =
      [⟨7, "main", "main", "main.go", 5⟩] ∧
    _parse_complexity_output "7 main main main.go:5" = [] :=
  ⟨rfl, rfl⟩

/-- C9: report assembly is deterministic up to the timestamp: for the same
configuration and parsed inputs, all report parts except the footer are
identical across two runs, and the two assembled reports are byte-identical
exactly when the two timestamps are equal. -/
theorem report_deterministic_up_to_timestamp (cfg : AnalysisConfig) (ts₁ ts₂ : String)
    (cd cc : List ComplexityEntry) (sa : StaticAnalysisResult)
    (va : List VetIssue) (sc : List StaticcheckIssue) (si : List SecurityIssue)
    (vu : List Vulnerability) (cs : List CodeSmell) (dc : List DeadItem)
    (av : List ArchitectureViolation) (m : CodeMetrics) :
    (_report_parts cfg ts₁ cd cc sa va sc si vu cs dc av m).dropLast =
      (_report_parts cfg ts₂ cd cc sa va sc si vu cs dc av m).dropLast ∧
    (_build_report cfg ts₁ cd cc sa va sc si vu cs dc av m =
      _build_report cfg ts₂ cd cc sa va sc si vu cs dc av m ↔ ts₁ = ts₂) := by
  constructor
  · rfl
  · simp [_build_report, _report_parts, pyJoin, _build_footer,
      strAppendCancelLeft, strAppendCancelRight]

/-- C10: for every nonempty security issue list, the section's third line is
the header count over the *entire* list, while the data rows (everything
after the six header lines, up to the two trailing blanks) are exactly the
HIGH, then MEDIUM, then LOW buckets — so the section has `8 + |H| + |M| +
|L|` lines and an issue with a severity outside those three buckets is
counted in the header but appears in no row. -/
theorem security_section_count_vs_rows (issues : List SecurityIssue) (h : issues ≠ []) :
    (_build_security_section issues)[2]? =
      some ("### Security Issues Found: " ++ toString issues.length) ∧
    (_build_security_section issues).drop 6 =
      (issues.filter isHighSeverity ++ issues.filter isMediumSeverity ++
        issues.filter isLowSeverity).map securityRow ++ ["", ""] ∧
    (_build_security_section issues).length =
      8 + ((issues.filter isHighSeverity).length + (issues.filter isMediumSeverity).length +
        (issues.filter isLowSeverity).length) := by
  obtain ⟨x, xs, rfl⟩ := List.exists_cons_of_ne_nil h
  refine ⟨?_, ?_, ?_⟩
  · simp [_build_security_section]
  · simp [_build_security_section]
  · simp [_build_security_section]
    omega

/-- C10 witness: the theorem applied to the singleton list whose only issue
has severity `UNKNOWN` — it is counted in the header while all three buckets
are empty. -/
theorem security_section_count_vs_rows_witness :
    (_build_security_section [⟨"UNKNOWN", "HIGH", "G101", "pw", "f.go", 3⟩])[2]? =
      some ("### Security Issues Found: " ++
        toString [(⟨"UNKNOWN", "HIGH", "G101", "pw", "f.go", 3⟩ : SecurityIssue)].length) ∧
    (_build_security_section [⟨"UNKNOWN", "HIGH", "G101", "pw", "f.go", 3⟩]).drop 6 =
      ([(⟨"UNKNOWN", "HIGH", "G101", "pw", "f.go", 3⟩ : SecurityIssue)].filter isHighSeverity ++
       [(⟨"UNKNOWN", "HIGH", "G101", "pw", "f.go", 3⟩ : SecurityIssue)].filter isMediumSeverity ++
       [(⟨"UNKNOWN", "HIGH", "G101", "pw", "f.go", 3⟩ : SecurityIssue)].filter isLowSeverity).map
        securityRow ++ ["", ""] ∧
    (_build_security_section [⟨"UNKNOWN", "HIGH", "G101", "pw", "f.go", 3⟩]).length =
      8 + (([(⟨"UNKNOWN", "HIGH", "G101", "pw", "f.go", 3⟩ : SecurityIssue)].filter
          isHighSeverity).length +
        ([(⟨"UNKNOWN", "HIGH", "G101", "pw", "f.go", 3⟩ : SecurityIssue)].filter
          isMediumSeverity).length +
        ([(⟨"UNKNOWN", "HIGH", "G101", "pw", "f.go", 3⟩ : SecurityIssue)].filter
          isLowSeverity).length) :=
  security_section_count_vs_rows _ (by decide)
